import Mathlib

/-! Verification of the cwisstable capability-resolution layer (cwisstable/base.h).

The header is pure preprocessor logic: it resolves compiler identity, SIMD
capability flags, diagnostic primitives and branch-prediction hints at compile
time.  We embed that logic shallowly: the predefined identity macros of a
toolchain and the platform feature macros become explicit records of booleans,
each CWISS macro becomes a pure Lean function of those records, and the
diagnostic macros (which evaluate expressions with side effects and write to
the standard error stream) become state-passing functions that also return the
list of stderr events and whether the expansion returns or aborts. -/

namespace Cwisstable

/-- Predefined identity macros of the toolchain compiling the translation
unit: whether each of the macros __clang__, __GNUC__ and _MSC_VER is
defined. -/
structure Toolchain where
  clang : Bool
  gnuc : Bool
  msvc : Bool
deriving DecidableEq

/-- CWISS_IS_CLANG (base.h lines 60-64): 1 exactly when __clang__ is
defined. -/
def CWISS_IS_CLANG (t : Toolchain) : Bool := t.clang

/-- CWISS_IS_GCCISH (base.h lines 65-69): 1 exactly when __GNUC__ is
defined (GCC, or Clang in GCC-compatibility mode). -/
def CWISS_IS_GCCISH (t : Toolchain) : Bool := t.gnuc

/-- CWISS_IS_MSVCISH (base.h lines 70-74): 1 exactly when _MSC_VER is
defined (MSVC, or clang-cl). -/
def CWISS_IS_MSVCISH (t : Toolchain) : Bool := t.msvc

/-- CWISS_IS_GCC (base.h line 75): CWISS_IS_GCCISH && !CWISS_IS_CLANG. -/
def CWISS_IS_GCC (t : Toolchain) : Bool := CWISS_IS_GCCISH t && !CWISS_IS_CLANG t

/-- CWISS_IS_MSVC (base.h line 76): CWISS_IS_MSVCISH && !CWISS_IS_CLANG. -/
def CWISS_IS_MSVC (t : Toolchain) : Bool := CWISS_IS_MSVCISH t && !CWISS_IS_CLANG t

/-- Modelled from the spec's notion of a recognized compiler: Clang (in plain,
GCC-compatibility or MSVC-compatibility mode), strict GCC, or strict MSVC.
Concretely, a toolchain is recognized when it defines __clang__, or defines
exactly one of __GNUC__ and _MSC_VER; no real non-Clang toolchain defines both
family macros, and a toolchain defining neither is "other"/unrecognized. -/
def recognizedToolchain (t : Toolchain) : Bool :=
  t.clang || (t.gnuc && !t.msvc) || (t.msvc && !t.gnuc)

/-- True when exactly one of the three booleans is true. -/
def exactlyOne3 (a b c : Bool) : Bool :=
  (a && !b && !c) || (!a && b && !c) || (!a && !b && c)

/-- Platform feature macros visible to the capability detector: whether
__SSE2__, __SSSE3__, _M_X64 and _M_IX86 are defined, and the numeric value of
_M_IX86_FP (0 when undefined). -/
structure Platform where
  sse2 : Bool
  ssse3 : Bool
  m_x64 : Bool
  m_ix86 : Bool
  m_ix86_fp : Nat

/-- Build-time overrides: a capability flag defined on the command line before
inclusion of base.h skips automatic detection for that flag (the #ifndef guard
at base.h lines 95 and 109). -/
structure BuildOptions where
  sse2Override : Option Bool
  ssse3Override : Option Bool

/-- Automatic detection branch for CWISS_HAVE_SSE2 (base.h lines 96-102):
defined(__SSE2__) || (CWISS_IS_MSVCISH && (defined(_M_X64) ||
(defined(_M_IX86) && _M_IX86_FP >= 2))). -/
def sse2Detect (t : Toolchain) (p : Platform) : Bool :=
  p.sse2 || (CWISS_IS_MSVCISH t && (p.m_x64 || (p.m_ix86 && decide (2 ≤ p.m_ix86_fp))))

/-- CWISS_HAVE_SSE2 (base.h lines 95-103): the override value when the build
defined the macro, otherwise the auto-detected value. -/
def CWISS_HAVE_SSE2 (o : BuildOptions) (t : Toolchain) (p : Platform) : Bool :=
  o.sse2Override.getD (sse2Detect t p)

/-- Automatic detection branch for CWISS_HAVE_SSSE3 (base.h lines 110-114):
defined(__SSSE3__). -/
def ssse3Detect (p : Platform) : Bool := p.ssse3

/-- CWISS_HAVE_SSSE3 (base.h lines 109-115): the override value when the build
defined the macro, otherwise the auto-detected value. -/
def CWISS_HAVE_SSSE3 (o : BuildOptions) (p : Platform) : Bool :=
  o.ssse3Override.getD (ssse3Detect p)

/-- The configuration-error condition of base.h lines 121-126: the branch
#if CWISS_HAVE_SSSE3 / #if !CWISS_HAVE_SSE2 reaches the directive
#error "Bad configuration: SSSE3 implies SSE2!" exactly when
CWISS_HAVE_SSSE3 is true and CWISS_HAVE_SSE2 is false, halting compilation. -/
def badSsse3Config (o : BuildOptions) (t : Toolchain) (p : Platform) : Bool :=
  CWISS_HAVE_SSSE3 o p && !CWISS_HAVE_SSE2 o t p

/-- Events a diagnostic expansion performs on the standard error stream. -/
inductive StderrEvent where
  | write (s : String)
  | flush
deriving DecidableEq

/-- Whether an expansion of a diagnostic macro returns control to the caller
or terminates the process abnormally via abort(). -/
inductive Outcome where
  | returned
  | aborted
deriving DecidableEq

/-- The fixed failure header written by CWISS_CHECK (base.h line 162):
fprintf(stderr, "CWISS_CHECK failed at %s:%d\n", __FILE__, __LINE__). -/
def checkHeader (file : String) (line : Nat) : String :=
  "CWISS_CHECK failed at " ++ file ++ ":" ++ toString line ++ "\n"

/-- CWISS_CHECK (base.h lines 159-167).  The condition and the message are
expressions with possible side effects, modelled as state transformers on an
arbitrary state type; the expansion evaluates the condition once and, if it is
true, breaks out of the do/while with no further effect.  If it is false it
evaluates the message, writes the header, the message and a newline to stderr,
flushes stderr, and calls abort().  The result is the final state, the list of
stderr events in order, and whether the expansion returned or aborted. -/
def CWISS_CHECK {σ : Type} (cond : σ → Bool × σ) (file : String) (line : Nat)
    (msg : σ → String × σ) (s : σ) : σ × (List StderrEvent × Outcome) :=
  if (cond s).1 then ((cond s).2, ([], Outcome.returned))
  else
    ((msg (cond s).2).2,
     ([StderrEvent.write (checkHeader file line),
       StderrEvent.write (msg (cond s).2).1,
       StderrEvent.write "\n",
       StderrEvent.flush],
      Outcome.aborted))

/-- The expansion of CWISS_CHECK in a build where NDEBUG-definedness is the
given boolean.  Its #define at base.h lines 159-167 sits outside every
#ifdef NDEBUG, so the expansion is the same function in both build modes. -/
def CWISS_CHECK_in_build {σ : Type} (_ndebug : Bool) :
    (σ → Bool × σ) → String → Nat → (σ → String × σ) → σ →
      σ × (List StderrEvent × Outcome) :=
  CWISS_CHECK

/-- CWISS_DCHECK (base.h lines 170-174) in a build where NDEBUG-definedness is
the given boolean: with NDEBUG the expansion is ((void)0), which evaluates
neither the condition nor the message and performs no stderr event; without
NDEBUG the macro is defined to be CWISS_CHECK itself. -/
def CWISS_DCHECK {σ : Type} (ndebug : Bool) (cond : σ → Bool × σ) (file : String)
    (line : Nat) (msg : σ → String × σ) (s : σ) : σ × (List StderrEvent × Outcome) :=
  if ndebug then (s, ([], Outcome.returned))
  else CWISS_CHECK cond file line msg s

/-- The state after n successive invocations of CWISS_DCHECK on the same
condition and message, threading the state through each invocation. -/
def dcheckIterState {σ : Type} (ndebug : Bool) (cond : σ → Bool × σ) (file : String)
    (line : Nat) (msg : σ → String × σ) : Nat → σ → σ
  | 0, s => s
  | n + 1, s => dcheckIterState ndebug cond file line msg n
      (CWISS_DCHECK ndebug cond file line msg s).1

/-- Semantics of the GCC/Clang intrinsic __builtin_expect: it returns the
value of its first argument; the second argument is only a hint. -/
def builtin_expect (x _expected : Int) : Int := x

/-- Semantics of the C logical-or expression (a || b) on int operands: it
yields the int 1 when either operand is nonzero and 0 otherwise (stdbool
false is the int 0). -/
def cLogicalOr (a b : Int) : Int := if a = 0 ∧ b = 0 then 0 else 1

/-- The int value of a C boolean expression: 1 for true, 0 for false. -/
def cBool (b : Bool) : Int := if b then 1 else 0

/-- CWISS_LIKELY on the intrinsic path (base.h line 180):
(__builtin_expect(false || (cond_), true)). -/
def CWISS_LIKELY_builtin (e : Int) : Int := builtin_expect (cLogicalOr 0 e) 1

/-- CWISS_UNLIKELY on the intrinsic path (base.h line 181):
(__builtin_expect(false || (cond_), false)). -/
def CWISS_UNLIKELY_builtin (e : Int) : Int := builtin_expect (cLogicalOr 0 e) 0

/-- CWISS_LIKELY on the fallback path (base.h line 183): (cond_). -/
def CWISS_LIKELY_fallback (e : Int) : Int := e

/-- CWISS_UNLIKELY on the fallback path (base.h line 184): (cond_). -/
def CWISS_UNLIKELY_fallback (e : Int) : Int := e

/-- Claim C1: for every toolchain configuration, CWISS_IS_GCC equals
(GCC-family AND NOT Clang) and CWISS_IS_MSVC equals (MSVC-family AND NOT
Clang); for every recognized compiler exactly one of Clang, strict GCC and
strict MSVC is true; and whenever Clang is detected — in particular in GCC- or
MSVC-compatibility mode — neither strict flag is true. -/
theorem cwiss_compiler_identity (c g m : Bool) :
    CWISS_IS_GCC ⟨c, g, m⟩ = (CWISS_IS_GCCISH ⟨c, g, m⟩ && !CWISS_IS_CLANG ⟨c, g, m⟩)
    ∧ CWISS_IS_MSVC ⟨c, g, m⟩ = (CWISS_IS_MSVCISH ⟨c, g, m⟩ && !CWISS_IS_CLANG ⟨c, g, m⟩)
    ∧ (recognizedToolchain ⟨c, g, m⟩ = true →
        exactlyOne3 (CWISS_IS_CLANG ⟨c, g, m⟩) (CWISS_IS_GCC ⟨c, g, m⟩)
          (CWISS_IS_MSVC ⟨c, g, m⟩) = true)
    ∧ (CWISS_IS_CLANG ⟨c, g, m⟩ = true →
        CWISS_IS_GCC ⟨c, g, m⟩ = false ∧ CWISS_IS_MSVC ⟨c, g, m⟩ = false) := by
  revert c g m
  decide

/-- Witness for C1 at Clang in GCC-compatibility mode (clang and gnuc both
defined): the flags satisfy the claim at this concrete toolchain. -/
theorem cwiss_compiler_identity_witness :
    CWISS_IS_GCC ⟨true, true, false⟩ =
        (CWISS_IS_GCCISH ⟨true, true, false⟩ && !CWISS_IS_CLANG ⟨true, true, false⟩)
    ∧ CWISS_IS_MSVC ⟨true, true, false⟩ =
        (CWISS_IS_MSVCISH ⟨true, true, false⟩ && !CWISS_IS_CLANG ⟨true, true, false⟩)
    ∧ (recognizedToolchain ⟨true, true, false⟩ = true →
        exactlyOne3 (CWISS_IS_CLANG ⟨true, true, false⟩) (CWISS_IS_GCC ⟨true, true, false⟩)
          (CWISS_IS_MSVC ⟨true, true, false⟩) = true)
    ∧ (CWISS_IS_CLANG ⟨true, true, false⟩ = true →
        CWISS_IS_GCC ⟨true, true, false⟩ = false
        ∧ CWISS_IS_MSVC ⟨true, true, false⟩ = false) :=
  cwiss_compiler_identity true true false

/-- Claim C2: whenever the resolved CWISS_HAVE_SSSE3 flag is true while the
resolved CWISS_HAVE_SSE2 flag is false, the preprocessor reaches the directive
#error "Bad configuration: SSSE3 implies SSE2!" and compilation halts; the
configuration is never silently accepted. -/
theorem ssse3_requires_sse2_error (o : BuildOptions) (t : Toolchain) (p : Platform)
    (h3 : CWISS_HAVE_SSSE3 o p = true) (h2 : CWISS_HAVE_SSE2 o t p = false) :
    badSsse3Config o t p = true := by
  simp [badSsse3Config, h3, h2]

/-- Witness for C2: overriding SSSE3 to true and SSE2 to false on a plain
platform resolves the flags to true and false and triggers the configuration
error. -/
theorem ssse3_requires_sse2_error_witness :
    CWISS_HAVE_SSSE3 ⟨some false, some true⟩ ⟨false, false, false, false, 0⟩ = true
    ∧ CWISS_HAVE_SSE2 ⟨some false, some true⟩ ⟨false, false, false⟩
        ⟨false, false, false, false, 0⟩ = false
    ∧ badSsse3Config ⟨some false, some true⟩ ⟨false, false, false⟩
        ⟨false, false, false, false, 0⟩ = true :=
  ⟨rfl, rfl, ssse3_requires_sse2_error ⟨some false, some true⟩ ⟨false, false, false⟩
    ⟨false, false, false, false, 0⟩ rfl rfl⟩

/-- Claim C3: for every condition that evaluates to false and every message,
CWISS_CHECK writes exactly the header "CWISS_CHECK failed at file:line\n",
then the caller-supplied formatted message, then a trailing newline, flushes
stderr, and aborts the process, with no further execution. -/
theorem cwiss_check_false_emits_and_aborts {σ : Type} (cond : σ → Bool × σ)
    (file : String) (line : Nat) (msg : σ → String × σ) (s : σ)
    (h : (cond s).1 = false) :
    CWISS_CHECK cond file line msg s =
      ((msg (cond s).2).2,
       ([StderrEvent.write (checkHeader file line),
         StderrEvent.write (msg (cond s).2).1,
         StderrEvent.write "\n",
         StderrEvent.flush],
        Outcome.aborted)) := by
  simp [CWISS_CHECK, h]

/-- Witness for C3: a concrete false condition with message "boom" at
file.c:42 produces exactly the header, the message, the newline and the flush
on stderr, and aborts. -/
theorem cwiss_check_false_emits_and_aborts_witness :
    CWISS_CHECK (fun _ : Unit => (false, ())) "file.c" 42 (fun _ => ("boom", ())) () =
      ((),
       ([StderrEvent.write (checkHeader "file.c" 42),
         StderrEvent.write "boom",
         StderrEvent.write "\n",
         StderrEvent.flush],
        Outcome.aborted)) :=
  cwiss_check_false_emits_and_aborts (fun _ : Unit => (false, ())) "file.c" 42
    (fun _ => ("boom", ())) () rfl

/-- Claim C4: for every condition that evaluates to true and every message,
CWISS_CHECK returns normally, writes nothing, and its only effect on the state
is the single evaluation of the condition itself; and because its #define is
outside every #ifdef NDEBUG, this holds identically whether debug checking is
enabled or disabled. -/
theorem cwiss_check_true_noop {σ : Type} (ndebug : Bool) (cond : σ → Bool × σ)
    (file : String) (line : Nat) (msg : σ → String × σ) (s : σ)
    (h : (cond s).1 = true) :
    CWISS_CHECK_in_build ndebug cond file line msg s =
      ((cond s).2, ([], Outcome.returned)) := by
  simp [CWISS_CHECK_in_build, CWISS_CHECK, h]

/-- Witness for C4: a true condition that increments a counter leaves the
counter incremented exactly once, no stderr event and a normal return, with
NDEBUG both defined and undefined. -/
theorem cwiss_check_true_noop_witness :
    CWISS_CHECK_in_build true (fun n : Nat => (true, n + 1)) "file.c" 7
        (fun n => ("msg", n)) 0 = (1, ([], Outcome.returned))
    ∧ CWISS_CHECK_in_build false (fun n : Nat => (true, n + 1)) "file.c" 7
        (fun n => ("msg", n)) 0 = (1, ([], Outcome.returned)) :=
  ⟨cwiss_check_true_noop true (fun n : Nat => (true, n + 1)) "file.c" 7
      (fun n => ("msg", n)) 0 rfl,
   cwiss_check_true_noop false (fun n : Nat => (true, n + 1)) "file.c" 7
      (fun n => ("msg", n)) 0 rfl⟩

/-- Claim C5: a capability flag defined before inclusion skips automatic
detection and reads exactly the defined value, for CWISS_HAVE_SSE2 and
CWISS_HAVE_SSSE3 alike; in particular an override of false makes the flag read
false on every platform, including one whose macros would auto-detect true. -/
theorem capability_override_precedence (b : Bool) (t : Toolchain) (p : Platform)
    (o2 o3 : Option Bool) :
    CWISS_HAVE_SSE2 ⟨some b, o3⟩ t p = b
    ∧ CWISS_HAVE_SSSE3 ⟨o2, some b⟩ p = b
    ∧ CWISS_HAVE_SSE2 ⟨some false, o3⟩ t p = false
    ∧ CWISS_HAVE_SSSE3 ⟨o2, some false⟩ p = false := by
  simp [CWISS_HAVE_SSE2, CWISS_HAVE_SSSE3]

/-- Witness for C5 on a platform defining __SSE2__ and __SSSE3__, where
auto-detection would yield true for both flags: the false overrides make both
flags read false. -/
theorem capability_override_precedence_witness :
    (sse2Detect ⟨false, false, false⟩ ⟨true, true, false, false, 0⟩ = true
      ∧ ssse3Detect ⟨true, true, false, false, 0⟩ = true)
    ∧ (CWISS_HAVE_SSE2 ⟨some false, some false⟩ ⟨false, false, false⟩
          ⟨true, true, false, false, 0⟩ = false
      ∧ CWISS_HAVE_SSSE3 ⟨some false, some false⟩ ⟨true, true, false, false, 0⟩ = false) :=
  ⟨⟨rfl, rfl⟩,
   (capability_override_precedence false ⟨false, false, false⟩
      ⟨true, true, false, false, 0⟩ (some false) (some false)).2.2⟩

/-- Claim C6: with NDEBUG defined, CWISS_DCHECK expands to ((void)0): the
state is untouched (so the condition is never evaluated), no stderr event
occurs, control returns normally, and after arbitrarily many invocations —
even of a condition that mutates the state — the state is unchanged. -/
theorem dcheck_ndebug_noop {σ : Type} (cond : σ → Bool × σ) (file : String)
    (line : Nat) (msg : σ → String × σ) (s : σ) (n : Nat) :
    CWISS_DCHECK true cond file line msg s = (s, ([], Outcome.returned))
    ∧ dcheckIterState true cond file line msg n s = s := by
  refine ⟨rfl, ?_⟩
  induction n generalizing s with
  | zero => rfl
  | succ k ih => simpa [dcheckIterState, CWISS_DCHECK] using ih _

/-- Claim C7: with NDEBUG undefined, CWISS_DCHECK is defined to be
CWISS_CHECK, so for every condition, message and state the two expansions
agree exactly: same stderr events, same flush, same outcome, same final
state. -/
theorem dcheck_debug_eq_check {σ : Type} (cond : σ → Bool × σ) (file : String)
    (line : Nat) (msg : σ → String × σ) (s : σ) :
    CWISS_DCHECK false cond file line msg s = CWISS_CHECK cond file line msg s :=
  rfl

/-- Claim C8: for every boolean expression, CWISS_LIKELY and CWISS_UNLIKELY
evaluate to the value of the expression itself, both on the intrinsic path
using __builtin_expect and on the fallback path. -/
theorem likely_preserves_bool (b : Bool) :
    CWISS_LIKELY_builtin (cBool b) = cBool b
    ∧ CWISS_UNLIKELY_builtin (cBool b) = cBool b
    ∧ CWISS_LIKELY_fallback (cBool b) = cBool b
    ∧ CWISS_UNLIKELY_fallback (cBool b) = cBool b := by
  revert b
  decide

/-- Claim C10: on the intrinsic path, CWISS_LIKELY and CWISS_UNLIKELY applied
to an arbitrary int expression yield its truth value (1 if nonzero, 0 if
zero), because the operand is wrapped as (false || e); only the fallback path
returns the expression unchanged, as the concrete value 2 shows. -/
theorem likely_booleanizes_int (e : Int) :
    CWISS_LIKELY_builtin e = (if e = 0 then 0 else 1)
    ∧ CWISS_UNLIKELY_builtin e = (if e = 0 then 0 else 1)
    ∧ CWISS_LIKELY_fallback e = e
    ∧ CWISS_UNLIKELY_fallback e = e
    ∧ CWISS_LIKELY_builtin 2 = 1
    ∧ CWISS_UNLIKELY_builtin 2 = 1 := by
  by_cases h : e = 0 <;>
    simp [CWISS_LIKELY_builtin, CWISS_UNLIKELY_builtin, CWISS_LIKELY_fallback,
      CWISS_UNLIKELY_fallback, builtin_expect, cLogicalOr, h]

end Cwisstable
